import Mathlib

/-!
Verification development for django-easymodel.

The definitions below are a shallow embedding of the admin localization
layer of the repository:

  * src/easymodel/admin/decorators.py  (compute_prohibited, lazy_localized_list,
    L10n.__new__, L10n.__call__, the installed get_readonly_fields and
    get_formset closures)
  * src/easymodel/decorators.py        (the permission-appending effect of
    I18n.__call__)

Helpers of the repository that are not shipped under src
(easymodel.utils.languagecode, easymodel.admin.forms) and external
framework collaborators (the admin base class, the formset factories,
flatten_fieldsets) are modelled from the specification, each marked by a
doc comment.  Python lists and tuples of field names become List String;
Python sets become Finset String; Python exceptions become an explicit
error type; in-place mutation of a class attribute is made visible by
returning the post-call attribute record next to the return value.
-/

set_option maxHeartbeats 1000000

/-- Errors raised by the embedded Python code paths.  The constructors mirror
the Python exception classes that the source can raise; messages follow the
source strings (quotes stripped). -/
inductive PyError where
  | attributeError (msg : String)
  | typeError (msg : String)
  | indexError (msg : String)
  deriving DecidableEq, Repr

/-- Embedding of compute_prohibited (src/easymodel/admin/decorators.py,
lines 13-14): set(fields) - set(exclude) - set(localized). -/
def compute_prohibited (fields exclude localized : List String) : Finset String :=
  (fields.toFinset \ exclude.toFinset) \ localized.toFinset

/-- Value of a Python sequence-of-field-names attribute: either a plain list
or a lazy_localized_list (src/easymodel/admin/decorators.py, lines 16-37)
carrying its stored elements together with the localized field names it was
initialized with.  The stored elements model the list contents; the
language-aware rewriting performed by the descriptor protocol on reads is
request-context dependent and outside the embedded claims. -/
inductive PySeq where
  | plain (elems : List String)
  | lll (elems : List String) (locs : List String)
  deriving DecidableEq, Repr

/-- Stored elements of a sequence value (what plain iteration, len and
indexing see before any language is resolved). -/
def PySeq.elems : PySeq → List String
  | PySeq.plain l => l
  | PySeq.lll l _ => l

/-- Embedding of constructing lazy_localized_list(sequence, localized_fieldnames)
(src/easymodel/admin/decorators.py, lines 23-30).  Python calls __new__ and
then, because the returned object is an instance of the class, always calls
__init__ on it with the same arguments.

  * sequence already a lazy_localized_list: __new__ returns sequence itself,
    then __init__ sets localized_fieldnames and runs list.__init__(self,
    sequence) with sequence being self; CPython list initialization first
    clears the list and then extends it from the iterable, which is now the
    already-cleared self, so the stored elements become empty.
  * otherwise: a fresh list object is allocated and initialized from the
    plain sequence.

The returned Bool records whether the result is the same object as the
input (true exactly in the re-wrap case). -/
def makeLazyLocalizedList : PySeq → List String → PySeq × Bool
  | PySeq.lll _ _, z => (PySeq.lll [] z, true)
  | PySeq.plain e, z => (PySeq.lll e z, false)

/-- Model description as the admin layer sees it: class name, app label,
the localized_fields list attached by the I18n decorator, the ordered names
of model._meta.fields, and model._meta.pk_index() (the index of the primary
key inside model._meta.fields, per the external framework). -/
structure PyModel where
  name : String
  app_label : String
  localized_fields : List String
  field_names : List String
  pk_index : Nat
  deriving DecidableEq, Repr

/-- Modelled from the spec: easymodel.utils.languagecode.get_real_fieldname is
not under src/.  The spec describes FieldNameCodec.physical_name as a
deterministic textual composition of a logical field name and a language
code, with example form title_en. -/
def get_real_fieldname (field language : String) : String :=
  field ++ "_" ++ language

/-- Modelled from the spec: easymodel.admin.forms.make_localised_form is not
under src/.  The spec describes it as an external form-factory collaborator
make_localized_form(model, base_form, exclude) -> form_class; it is embedded
as a constructor recording its arguments. -/
inductive FormCls where
  | base (name : String)
  | localised (modelName : String) (parent : FormCls) (excluded : List String)
  deriving DecidableEq, Repr

/-- Class-level attribute record of an admin configuration class as touched
by L10n.__call__.  objId models Python object identity: functions that mutate
a class in place keep its objId, while synthesizing a subclass allocates a
fresh one.  model_attr is none when the class has no model attribute at all
(hasattr false) and some none when the attribute exists but is None. -/
structure AdminCfg where
  name : String
  objId : Nat
  model_attr : Option (Option PyModel)
  form : FormCls
  exclude : Option (List String)
  list_display : PySeq
  list_display_links : PySeq
  list_editable : PySeq
  search_fields : PySeq
  actions_is_none : Bool
  has_change_view : Bool
  has_l10n_get_readonly_fields : Bool
  has_l10n_get_formset : Bool
  deriving DecidableEq, Repr

/-- The added_fields list gathered by L10n.__call__ (src/easymodel/admin/
decorators.py, lines 117-121): for each localized field, for each configured
language code, the physical field name. -/
def addedFieldsOf (m : PyModel) (langs : List String) : List String :=
  m.localized_fields.flatMap (fun f => langs.map (fun l => get_real_fieldname f l))

/-- Embedding of the body of L10n.__call__ once the model is resolved
(src/easymodel/admin/decorators.py, lines 117-210): set exclude to the added
fields, rebuild the form class with those fields excluded, install the
permission-gated get_readonly_fields, then branch on hasattr(cls,
'change_view'): the top-level branch prepends the action checkbox to
list_display when bulk actions are enabled, defaults list_display_links to
the first non-checkbox display entry when empty, and wraps the four display
configurations in lazy_localized_list; the inline branch installs the
get_formset override instead.  langs stands for
easymodel.utils.languagecode.get_all_language_codes(), the process-wide
language registry. -/
def projectWith (m : PyModel) (cls : AdminCfg) (langs : List String) : AdminCfg :=
  let added := addedFieldsOf m langs
  let cls1 : AdminCfg :=
    { cls with exclude := some added,
               form := FormCls.localised m.name cls.form added,
               has_l10n_get_readonly_fields := true }
  if cls1.has_change_view then
    let ld : PySeq :=
      if "action_checkbox" ∈ cls1.list_display.elems ∨ cls1.actions_is_none then
        cls1.list_display
      else
        PySeq.plain ("action_checkbox" :: cls1.list_display.elems)
    let ldl : PySeq :=
      if cls1.list_display_links.elems = [] then
        match ld.elems.find? (fun n => n != "action_checkbox") with
        | some n => PySeq.plain [n]
        | none => cls1.list_display_links
      else cls1.list_display_links
    { cls1 with
      list_display := (makeLazyLocalizedList ld m.localized_fields).1,
      list_display_links := (makeLazyLocalizedList ldl m.localized_fields).1,
      list_editable := (makeLazyLocalizedList cls1.list_editable m.localized_fields).1,
      search_fields := (makeLazyLocalizedList cls1.search_fields m.localized_fields).1 }
  else
    { cls1 with has_l10n_get_formset := true }

/-- The error string L10n.error_no_model
(src/easymodel/admin/decorators.py, line 71). -/
def error_no_model (n : String) : String :=
  "L10n: " ++ n ++ " does not have model defined, but no model was passed to L10n either"

/-- Embedding of L10n.__call__ entry (src/easymodel/admin/decorators.py,
lines 110-115 plus the projection body): if the class has a model attribute
its value overrides self.model, even when that value is None, in which case
the later read of self.model.localized_fields raises AttributeError; if the
class has no model attribute and self.model is unset, the error_no_model
AttributeError is raised. -/
def L10n_call (selfModel : Option PyModel) (cls : AdminCfg) (langs : List String) :
    Except PyError AdminCfg :=
  match cls.model_attr with
  | some (some m) => Except.ok (projectWith m cls langs)
  | some none =>
      Except.error (PyError.attributeError "NoneType object has no attribute localized_fields")
  | none =>
      match selfModel with
      | some m => Except.ok (projectWith m cls langs)
      | none => Except.error (PyError.attributeError (error_no_model cls.name))

/-- First argument of L10n.__new__: a model class (isinstance ModelBase), an
admin class (issubclass BaseModelAdmin), some other class, or None / a
non-class value (for which issubclass itself raises TypeError). -/
inductive PyVal where
  | modelCls (m : PyModel)
  | adminCls (a : AdminCfg)
  | otherCls (name : String)
  | pyNone
  deriving DecidableEq, Repr

/-- Result of L10n.__new__: either the L10n factory object awaiting a class,
or a projected admin configuration. -/
inductive L10nResult where
  | factory (m : PyModel)
  | projected (cfg : AdminCfg)
  deriving DecidableEq, Repr

/-- Embedding of the subclass synthesis type(obj.model.__name__ +
cls.__name__, (cls,), dict with model set) (src/easymodel/admin/
decorators.py, line 99): a fresh class (new objId) inheriting every
attribute, with the model attribute bound. -/
def mkDescendant (m : PyModel) (cls : AdminCfg) : AdminCfg :=
  { cls with name := m.name ++ cls.name,
             model_attr := some (some m),
             objId := cls.objId + 1 }

/-- Embedding of L10n.__new__ (src/easymodel/admin/decorators.py, lines
73-108).  inline syntax (second argument given) synthesizes a descendant
class and projects it; a model argument alone returns the factory object; an
admin-class argument resolves the model from the class (raising the
error_no_model AttributeError when the attribute is missing) and projects
the class itself; any other class raises the explicit TypeError, and None or
a non-class raises TypeError from the issubclass check. -/
def L10n_new (arg : PyVal) (clsArg : Option AdminCfg) (langs : List String) :
    Except PyError L10nResult :=
  match arg with
  | PyVal.modelCls m =>
      match clsArg with
      | some c => (L10n_call (some m) (mkDescendant m c) langs).map L10nResult.projected
      | none => Except.ok (L10nResult.factory m)
  | PyVal.adminCls a =>
      match a.model_attr with
      | none => Except.error (PyError.attributeError (error_no_model a.name))
      | some v =>
          match clsArg with
          | some _ =>
              match v with
              | some m =>
                  (L10n_call (some m) (mkDescendant m a) langs).map L10nResult.projected
              | none =>
                  Except.error (PyError.attributeError "NoneType object has no attribute __name__")
          | none => (L10n_call v a langs).map L10nResult.projected
  | PyVal.otherCls n =>
      Except.error (PyError.typeError ("L10n can not accept parameters of type " ++ n))
  | PyVal.pyNone =>
      Except.error (PyError.typeError "issubclass() arg 1 must be a class")

/-- Applying the factory object returned by L10n(model) to an admin class,
i.e. the decorator usage of the factory style; it runs L10n.__call__ on the
given class itself (mutating it in place). -/
def L10n_apply (m : PyModel) (cls : AdminCfg) (langs : List String) : Except PyError AdminCfg :=
  L10n_call (some m) cls langs

/-- Entry of a declared fieldset field list: a single field name or a grouped
tuple of names. -/
inductive FieldsetEntry where
  | one (s : String)
  | grp (l : List String)
  deriving DecidableEq, Repr

/-- Modelled from the spec: django.contrib.admin.util.flatten_fieldsets is an
external collaborator; the spec describes step (i) of the formset override as
flattening any declared fieldset groups into a flat field list.  Each
fieldset is a (name, field entries) pair; grouped tuples are spliced in
order. -/
def flatten_fieldsets (fs : List (String × List FieldsetEntry)) : List String :=
  fs.flatMap (fun p => p.2.flatMap (fun e =>
    match e with
    | FieldsetEntry.one s => [s]
    | FieldsetEntry.grp l => l))

/-- Formset classes distinguished by the source: the default
BaseGenericInlineFormSet, the localization-aware
LocalizableGenericInlineFormSet collaborator, or any other class. -/
inductive FormsetCls where
  | baseGeneric
  | localizable
  | otherFs (n : String)
  deriving DecidableEq, Repr

/-- A Python value sitting in the formset attribute: normally a class, but
possibly an instance of a class. -/
inductive PyFormsetVal where
  | classVal (c : FormsetCls)
  | instanceVal (c : FormsetCls)
  deriving DecidableEq, Repr

/-- Embedding of the substitution condition (src/easymodel/admin/
decorators.py, lines 201-202): self.formset is BaseGenericInlineFormSet or
self.formset.__class__ is BaseGenericInlineFormSet.  For a class value,
__class__ is its metaclass, never BaseGenericInlineFormSet, so only the
identity disjunct applies; for an instance value, __class__ is its class. -/
def formsetIsDefaultGeneric : PyFormsetVal → Bool
  | PyFormsetVal.classVal FormsetCls.baseGeneric => true
  | PyFormsetVal.instanceVal FormsetCls.baseGeneric => true
  | _ => false

/-- Request-time attribute record of a projected admin configuration, as
read and written by the installed get_readonly_fields and get_formset
closures.  fields, exclude and declared_fieldsets are none when the Python
attribute is None; model collects the bound model. -/
structure AdminRuntime where
  model : PyModel
  fields : Option (List String)
  exclude : Option (List String)
  readonly_fields : List String
  declared_fieldsets : Option (List (String × List FieldsetEntry))
  has_ct_fk_field : Bool
  ct_field : String
  ct_fk_field : String
  form : FormCls
  formset : PyFormsetVal
  extra : Nat
  can_delete : Bool
  max_num : Option Nat
  deriving DecidableEq, Repr

/-- Python truthiness of an optional list attribute: None and the empty list
are falsy. -/
def pyTruthy (o : Option (List String)) : Bool :=
  match o with
  | some (_ :: _) => true
  | _ => false

/-- Return value of get_readonly_fields: the permission-holding branch
returns the readonly_fields list object itself, the other branch returns a
Python set.  The set is embedded as a Finset; Python set iteration order is
not specified, so code that turns the set back into a list is modelled with
a canonical (sorted) enumeration. -/
inductive ROResult where
  | asList (l : List String)
  | asSet (s : Finset String)
  deriving DecidableEq

/-- Elements of a get_readonly_fields result as a set. -/
def ROResult.roSet : ROResult → Finset String
  | ROResult.asList l => l.toFinset
  | ROResult.asSet s => s

/-- Elements of a get_readonly_fields result as a list (canonical sorted
enumeration for the set case, see ROResult). -/
def ROResult.roList : ROResult → List String
  | ROResult.asList l => l
  | ROResult.asSet s => s.sort (· ≤ ·)

/-- Embedding of the installed get_readonly_fields closure
(src/easymodel/admin/decorators.py, lines 133-142).  hasPerm is the result
of the external permission lookup request.user.has_perm(permisson_name).
Faithful operational points: fields aliases the self.fields attribute when
that attribute is truthy (so the later pop mutates the shared attribute,
reflected in the returned post-call record) and is a fresh list of all model
field names otherwise; fields.pop(self.model._meta.pk_index()) removes the
element at the pk index position, raising IndexError when out of range;
set(self.exclude) raises TypeError when the attribute is None.  A raised
error is propagated without tracking the partially mutated record. -/
def get_readonly_fields (cfg : AdminRuntime) (hasPerm : Bool) :
    Except PyError (ROResult × AdminRuntime) :=
  if hasPerm then
    Except.ok (ROResult.asList cfg.readonly_fields, cfg)
  else
    let usesSelfFields := pyTruthy cfg.fields
    let fields0 := if usesSelfFields then cfg.fields.getD [] else cfg.model.field_names
    if cfg.model.pk_index < fields0.length then
      let fields1 := fields0.eraseIdx cfg.model.pk_index
      match cfg.exclude with
      | none => Except.error (PyError.typeError "NoneType object is not iterable")
      | some excl =>
          let prohibited := compute_prohibited fields1 excl cfg.model.localized_fields
          let cfg2 := if usesSelfFields then { cfg with fields := some fields1 } else cfg
          Except.ok (ROResult.asSet (cfg.readonly_fields.toFinset ∪ prohibited), cfg2)
    else Except.error (PyError.indexError "pop index out of range")

/-- Keyword arguments forwarded to get_formset; each field is an optional
override for the corresponding key of the defaults dictionary
(defaults.update(kwargs)).  Keys absent from the defaults dictionary are out
of scope for the embedded claims. -/
structure Kwargs where
  kw_ct_field : Option String := none
  kw_fk_field : Option String := none
  kw_form : Option FormCls := none
  kw_formfield_callback : Option String := none
  kw_formset : Option PyFormsetVal := none
  kw_extra : Option Nat := none
  kw_can_delete : Option Bool := none
  kw_can_order : Option Bool := none
  kw_fields : Option (Option (List String)) := none
  kw_max_num : Option (Option Nat) := none
  kw_exclude : Option (Option (List String)) := none
  deriving DecidableEq, Repr

/-- The empty keyword-argument dictionary. -/
def kwargsEmpty : Kwargs := {}

/-- The defaults dictionary built for generic_inlineformset_factory
(src/easymodel/admin/decorators.py, lines 184-196). -/
structure GenericDefaults where
  ct_field : String
  fk_field : String
  form : FormCls
  formfield_callback : String
  formset : PyFormsetVal
  extra : Nat
  can_delete : Bool
  can_order : Bool
  fields : Option (List String)
  max_num : Option Nat
  exclude : Option (List String)
  deriving DecidableEq, Repr

/-- defaults.update(kwargs) (src/easymodel/admin/decorators.py, line 198). -/
def updateDefaults (d : GenericDefaults) (k : Kwargs) : GenericDefaults :=
  { ct_field := k.kw_ct_field.getD d.ct_field,
    fk_field := k.kw_fk_field.getD d.fk_field,
    form := k.kw_form.getD d.form,
    formfield_callback := k.kw_formfield_callback.getD d.formfield_callback,
    formset := k.kw_formset.getD d.formset,
    extra := k.kw_extra.getD d.extra,
    can_delete := k.kw_can_delete.getD d.can_delete,
    can_order := k.kw_can_order.getD d.can_order,
    fields := k.kw_fields.getD d.fields,
    max_num := k.kw_max_num.getD d.max_num,
    exclude := k.kw_exclude.getD d.exclude }

/-- Observable outcome of the installed get_formset: either delegation to
super(cls, self).get_formset(request, obj, **kwargs) with the original
keyword arguments (the external inherited implementation), or a call
generic_inlineformset_factory(self.model, **defaults). -/
inductive FormsetOutcome where
  | superCall (kw : Kwargs)
  | genericFactory (modelName : String) (d : GenericDefaults)
  deriving DecidableEq, Repr

/-- Embedding of the installed get_formset closure (src/easymodel/admin/
decorators.py, lines 166-205).  It flattens declared fieldsets when truthy,
lists self.exclude (empty when None), extends it with the current request's
get_readonly_fields result (whose in-place effect on self.fields is carried
through to the returned record), replaces an empty exclusion list by None,
and then: without a ct_fk_field attribute it delegates to the inherited
get_formset with the original kwargs (dropping the computed lists); with one
it builds the defaults dictionary, applies the kwargs overrides, substitutes
LocalizableGenericInlineFormSet when self.formset is the default generic
formset, and calls generic_inlineformset_factory. -/
def get_formset (cfg : AdminRuntime) (hasPerm : Bool) (kw : Kwargs) :
    Except PyError (FormsetOutcome × AdminRuntime) :=
  let fieldsOpt : Option (List String) :=
    match cfg.declared_fieldsets with
    | some (f :: fs) => some (flatten_fieldsets (f :: fs))
    | _ => none
  let exclude0 : List String := cfg.exclude.getD []
  match get_readonly_fields cfg hasPerm with
  | Except.error e => Except.error e
  | Except.ok (ro, cfg2) =>
      let exclude1 := exclude0 ++ ro.roList
      let excludeOpt : Option (List String) :=
        if exclude1 = [] then none else some exclude1
      if cfg.has_ct_fk_field then
        let d0 : GenericDefaults :=
          { ct_field := cfg.ct_field,
            fk_field := cfg.ct_fk_field,
            form := cfg.form,
            formfield_callback := "formfield_for_dbfield",
            formset := cfg.formset,
            extra := cfg.extra,
            can_delete := cfg.can_delete,
            can_order := false,
            fields := fieldsOpt,
            max_num := cfg.max_num,
            exclude := excludeOpt }
        let d1 := updateDefaults d0 kw
        let d2 := if formsetIsDefaultGeneric cfg.formset then
                    { d1 with formset := PyFormsetVal.classVal FormsetCls.localizable }
                  else d1
        Except.ok (FormsetOutcome.genericFactory cfg.model.name d2, cfg2)
      else
        Except.ok (FormsetOutcome.superCall kw, cfg2)

/-- Model permission declarations: Python tuple or list of (codename,
human label) pairs, as found in cls._meta.permissions. -/
inductive PermColl where
  | tup (l : List (String × String))
  | lst (l : List (String × String))
  deriving DecidableEq, Repr

/-- Entries of a permission collection in declaration order. -/
def PermColl.entries : PermColl → List (String × String)
  | PermColl.tup l => l
  | PermColl.lst l => l

/-- Whether a permission collection is a tuple. -/
def PermColl.isTuple : PermColl → Bool
  | PermColl.tup _ => true
  | PermColl.lst _ => false

/-- Embedding of the permission-appending effect of I18n.__call__
(src/easymodel/decorators.py, lines 38-42): build the one-element collection
holding (can_edit_untranslated_fields_of_ followed by the lowercased class
name, "Can edit untranslated fields"), cast it to the type of
cls._meta.permissions, and concatenate. -/
def I18n_add_permission (clsName : String) (perms : PermColl) : PermColl :=
  let perm : List (String × String) :=
    [("can_edit_untranslated_fields_of_" ++ clsName.toLower, "Can edit untranslated fields")]
  match perms with
  | PermColl.tup l => PermColl.tup (l ++ perm)
  | PermColl.lst l => PermColl.lst (l ++ perm)

/-- A localized model used by the concrete instances below: localized field
title, model fields id, title, body, primary key id at index 0. -/
def modelBase : PyModel :=
  { name := "Article", app_label := "app",
    localized_fields := ["title"],
    field_names := ["id", "title", "body"],
    pk_index := 0 }

/-- A baseline request-time attribute record used by the concrete instances
below. -/
def runtimeBase : AdminRuntime :=
  { model := modelBase,
    fields := none,
    exclude := some [],
    readonly_fields := [],
    declared_fieldsets := none,
    has_ct_fk_field := false,
    ct_field := "content_type",
    ct_fk_field := "object_id",
    form := FormCls.base "ModelForm",
    formset := PyFormsetVal.classVal (FormsetCls.otherFs "BaseInlineFormSet"),
    extra := 3,
    can_delete := true,
    max_num := none }

/-- A baseline class-level attribute record used by the concrete instances
below. -/
def adminBase : AdminCfg :=
  { name := "ModelAdmin",
    objId := 0,
    model_attr := none,
    form := FormCls.base "ModelForm",
    exclude := none,
    list_display := PySeq.plain [],
    list_display_links := PySeq.plain [],
    list_editable := PySeq.plain [],
    search_fields := PySeq.plain [],
    actions_is_none := false,
    has_change_view := true,
    has_l10n_get_readonly_fields := false,
    has_l10n_get_formset := false }

/-- Concrete configuration for claim C1: declared fields title and body on a
model whose primary key id sits at index 0 of the model field list, nothing
excluded, nothing localized, no declared read-only fields. -/
def cfgC1 : AdminRuntime :=
  { runtimeBase with
    model := { modelBase with localized_fields := [] },
    fields := some ["title", "body"] }

/-- Concrete configuration for claim C4: same shape as cfgC1, exercising the
in-place pop on the shared fields attribute. -/
def cfgC4 : AdminRuntime :=
  { runtimeBase with
    model := { modelBase with localized_fields := [] },
    fields := some ["title", "body"] }

/-- Concrete model for claim C5. -/
def modelC5 : PyModel := modelBase

/-- Concrete admin class for claim C5: a shared base admin class without a
model attribute of its own (like the framework ModelAdmin base). -/
def adminC5 : AdminCfg := adminBase

/-- Concrete non-generic inline configuration for claim C6 (no ct_fk_field
attribute), with a nonempty exclusion list so the computed extension is
nontrivial. -/
def cfgC6 : AdminRuntime :=
  { runtimeBase with
    model := { modelBase with name := "Comment", localized_fields := [],
                              field_names := ["id", "a", "b"] },
    exclude := some ["x1"],
    has_ct_fk_field := false }

/-- Concrete generic inline configuration for the claim C6 witness: a
ct_fk_field attribute is present and the default generic formset is
configured, so the substitution branch fires. -/
def cfgC6w : AdminRuntime :=
  { runtimeBase with
    exclude := some ["title_en"],
    readonly_fields := ["ro1"],
    declared_fieldsets :=
      some [("group1", [FieldsetEntry.one "a", FieldsetEntry.grp ["b", "c"]])],
    has_ct_fk_field := true,
    formset := PyFormsetVal.classVal FormsetCls.baseGeneric }

/-- Concrete model for claim C8. -/
def modelC8 : PyModel := modelBase

/-- Concrete admin class for claim C8: top-level, empty display list, empty
display-links list, bulk actions enabled, so the checkbox column is
prepended and no non-checkbox display entry exists. -/
def adminC8 : AdminCfg := adminBase

/-- Concrete admin class for the claim C8 witness: display list holding the
checkbox column and title, empty display-links list. -/
def adminC8w : AdminCfg :=
  { adminBase with list_display := PySeq.plain ["action_checkbox", "title"] }

/-- Concrete model for claim C9. -/
def modelC9 : PyModel := modelBase

/-- Concrete admin class for claim C9: the model attribute exists but is
None, as on the framework InlineModelAdmin base class. -/
def adminC9 : AdminCfg :=
  { adminBase with name := "CommentInline", model_attr := some none,
                   has_change_view := false }

/-- Concrete admin class for the claim C9 witness: no model attribute, so
the factory-supplied model is used. -/
def adminC9w : AdminCfg :=
  { adminBase with name := "ArticleAdmin" }

/-- Projection keeps the identity of the class object it is applied to: the
source mutates attributes of cls in place and returns cls itself. -/
theorem projectWith_objId (m : PyModel) (cls : AdminCfg) (langs : List String) :
    (projectWith m cls langs).objId = cls.objId := by
  simp only [projectWith]
  split <;> rfl

/-- The canonical list enumeration of a get_readonly_fields result has
exactly the elements of the result set. -/
theorem roList_toFinset (ro : ROResult) : ro.roList.toFinset = ro.roSet := by
  cases ro with
  | asList l => rfl
  | asSet s => exact Finset.sort_toFinset _ s

/-- Length of the cartesian field-name expansion. -/
theorem addedFields_length (Z langs : List String) :
    (Z.flatMap (fun f => langs.map (fun l => get_real_fieldname f l))).length =
      Z.length * langs.length := by
  induction Z with
  | nil => simp
  | cons f Z ih => simp [ih, Nat.succ_mul, Nat.add_comm]

/-- Wrapping a sequence whose stored elements are empty yields a wrapped
sequence whose stored elements are empty. -/
theorem makeLazy_elems_of_nil (s : PySeq) (z : List String) (h : s.elems = []) :
    ((makeLazyLocalizedList s z).1).elems = [] := by
  cases s <;> simp_all [makeLazyLocalizedList, PySeq.elems]

/-- Prepending the checkbox column does not change the first non-checkbox
entry. -/
theorem find_noncheckbox_cons (l : List String) :
    (("action_checkbox" :: l).find? (fun n => n != "action_checkbox")) =
      l.find? (fun n => n != "action_checkbox") := by
  simp [List.find?]

/-- C1: the claim says get_readonly_fields removes the primary-key field
from the declared field list before computing prohibited fields.  On cfgC1
(declared fields ["title", "body"], model fields ["id", "title", "body"]
with primary key id at index 0, empty exclude and localized sets, empty
declared read-only fields, principal without the permission) the code pops
the element at the pk index position of the declared list, discarding
"title" instead of the primary key, and returns the set containing only
"body"; removing the primary key as the claim states would leave both
"title" and "body" in the candidate set. -/
theorem c1_get_readonly_fields_pops_wrong_element :
    get_readonly_fields cfgC1 false =
      Except.ok (ROResult.asSet {"body"}, { cfgC1 with fields := some ["body"] }) ∧
    ({"title", "body"} : Finset String) ≠ {"body"} := by
  refine ⟨rfl, by decide⟩

/-- C2: re-wrapping an already-wrapped lazy_localized_list returns the same
object (the true flag) but empties its stored elements: __init__ still runs
and list.__init__(self, self) clears the list before extending it from the
now-empty self, so the plain-sequence read path no longer returns the
originally supplied names ["title"]. -/
theorem c2_rewrap_same_object_but_emptied :
    makeLazyLocalizedList (PySeq.lll ["title"] ["title"]) ["title"] =
      (PySeq.lll [] ["title"], true) ∧
    (PySeq.lll ["title"] ["title"]).elems = ["title"] := by
  exact ⟨rfl, rfl⟩

/-- C3: compute_prohibited is the set difference F − E − Z and its result is
disjoint from the exclude collection and from the localized collection. -/
theorem c3_compute_prohibited_difference (F E Z : List String) :
    compute_prohibited F E Z = (F.toFinset \ E.toFinset) \ Z.toFinset ∧
    Disjoint (compute_prohibited F E Z) E.toFinset ∧
    Disjoint (compute_prohibited F E Z) Z.toFinset :=
  ⟨rfl, disjoint_sdiff_self_left.mono_left sdiff_le, disjoint_sdiff_self_left⟩

/-- C4: a call of get_readonly_fields by a principal without the permission
on a configuration whose fields attribute is a nonempty list mutates the
class-level configuration: fields.pop aliases the shared attribute, so after
the call the fields attribute has shrunk from ["title", "body"] to ["body"],
while the claim states the configuration is left unchanged. -/
theorem c4_get_readonly_fields_mutates_fields :
    cfgC4.fields = some ["title", "body"] ∧
    (get_readonly_fields cfgC4 false).toOption.map (fun p => p.2.fields) =
      some (some ["body"]) := by
  exact ⟨rfl, rfl⟩

/-- C5 counterexample: the claim states that neither invocation shape
mutates a shared base admin class in place.  Applying the factory style
L10n(model) to the shared base class adminC5 returns the very same class
object (same objId) with its attributes rewritten (exclude goes from None to
the added physical fields), i.e. an in-place mutation; the direct style is
the only shape that synthesizes a fresh subclass. -/
theorem c5_factory_application_mutates_in_place :
    (L10n_apply modelC5 adminC5 ["en"]).toOption.map AdminCfg.objId = some adminC5.objId ∧
    adminC5.exclude = none ∧
    (L10n_apply modelC5 adminC5 ["en"]).toOption.map AdminCfg.exclude =
      some (some ["title_en"]) := by
  exact ⟨rfl, rfl, rfl⟩

/-- C7: projecting an admin configuration sets its exclude list to the full
cartesian expansion of the model's localized fields with all configured
language codes (one physical name per pair, formed by the codec
composition), and rebuilds the form class to exclude exactly those
fields. -/
theorem c7_projection_exclude_added_fields (m : PyModel) (cls : AdminCfg)
    (langs : List String) :
    (projectWith m cls langs).exclude = some (addedFieldsOf m langs) ∧
    (projectWith m cls langs).form =
      FormCls.localised m.name cls.form (addedFieldsOf m langs) ∧
    (addedFieldsOf m langs).length = m.localized_fields.length * langs.length ∧
    (∀ x : String, x ∈ addedFieldsOf m langs ↔
       ∃ f, f ∈ m.localized_fields ∧ ∃ l, l ∈ langs ∧ get_real_fieldname f l = x) := by
  refine ⟨?_, ?_, addedFields_length m.localized_fields langs, ?_⟩
  · simp only [projectWith]
    split <;> rfl
  · simp only [projectWith]
    split <;> rfl
  · intro x
    simp [addedFieldsOf, List.mem_flatMap, List.mem_map]

/-- C8 counterexample: the claim states every top-level configuration with
an empty display-links list gets a one-element display-links list.  On
adminC8 the display list is empty; projection prepends the checkbox column
(bulk actions enabled), finds no non-checkbox display entry, and leaves the
display-links list empty, not a one-element list. -/
theorem c8_no_noncheckbox_display_entry :
    adminC8.has_change_view = true ∧
    adminC8.list_display_links.elems = [] ∧
    (projectWith modelC8 adminC8 ["en"]).list_display_links.elems = [] := by
  exact ⟨rfl, rfl, rfl⟩

/-- C9 counterexample: the claim states the projector fails only when no
model is resolvable (no model passed and no model attribute) or the argument
type is unsupported.  Here a model is passed and the target class has a
model attribute, but that attribute is None (as on the framework inline admin
base class): the attribute's presence overrides the passed model, and the
projection crashes with an AttributeError when reading localized_fields of
None, where the claim predicts success. -/
theorem c9_model_attr_none_raises :
    adminC9.model_attr = some none ∧
    L10n_apply modelC9 adminC9 ["en"] =
      Except.error (PyError.attributeError "NoneType object has no attribute localized_fields") := by
  exact ⟨rfl, rfl⟩

/-- C10: the I18n decorator appends exactly one permission entry, built from
the lowercased class name with the fixed human label, to the end of the
model's permission declarations, preserving all existing entries in order
and the collection kind (tuple or list). -/
theorem c10_i18n_appends_permission (n : String) (perms : PermColl) :
    (I18n_add_permission n perms).entries =
      perms.entries ++
        [("can_edit_untranslated_fields_of_" ++ n.toLower, "Can edit untranslated fields")] ∧
    (I18n_add_permission n perms).isTuple = perms.isTuple := by
  cases perms <;> exact ⟨rfl, rfl⟩

/-- C5 amended: the direct style L10n(M, A) always synthesizes a fresh
model-bound subclass of A (new object identity, model attribute bound to M)
and returns its projection, leaving A itself unmutated; the factory style
L10n(M) applied to a class projects and returns that same class object,
mutating it in place (no subclass is synthesized), and resolves the model
from the class's own model attribute in preference to M when that attribute
holds a model; both shapes apply the same projection. -/
theorem c5_amended_invocation_shapes (m : PyModel) (a : AdminCfg) (langs : List String) :
    L10n_new (PyVal.modelCls m) (some a) langs =
      Except.ok (L10nResult.projected (projectWith m (mkDescendant m a) langs)) ∧
    (mkDescendant m a).objId ≠ a.objId ∧
    (mkDescendant m a).model_attr = some (some m) ∧
    (a.model_attr = none →
       L10n_apply m a langs = Except.ok (projectWith m a langs) ∧
       (projectWith m a langs).objId = a.objId) ∧
    (∀ m2 : PyModel, a.model_attr = some (some m2) →
       L10n_apply m a langs = Except.ok (projectWith m2 a langs) ∧
       (projectWith m2 a langs).objId = a.objId) := by
  refine ⟨rfl, Nat.succ_ne_self a.objId, rfl, ?_, ?_⟩
  · intro h
    refine ⟨?_, projectWith_objId m a langs⟩
    simp [L10n_apply, L10n_call, h]
  · intro m2 h
    refine ⟨?_, projectWith_objId m2 a langs⟩
    simp [L10n_apply, L10n_call, h]

/-- C5 amended witness: the factory-style branch instantiated at the
concrete shared base class adminC5 and the model modelC5. -/
theorem c5_amended_invocation_shapes_witness :
    adminC5.model_attr = none ∧
    (L10n_apply modelC5 adminC5 ["en"] = Except.ok (projectWith modelC5 adminC5 ["en"]) ∧
     (projectWith modelC5 adminC5 ["en"]).objId = adminC5.objId) :=
  ⟨rfl, (c5_amended_invocation_shapes modelC5 adminC5 ["en"]).2.2.2.1 rfl⟩

/-- C6 counterexample: the claim states that the flattened field list and
the extended exclusion list are passed to the formset factory the installed
get_formset delegates to.  On the non-generic inline configuration cfgC6
(no ct_fk_field attribute, principal without the permission) the computed
lists are discarded: the installed get_formset delegates to the inherited
implementation with only the original keyword arguments, which carry no
fields and no exclude entry. -/
theorem c6_super_delegation_drops_computed_lists :
    cfgC6.has_ct_fk_field = false ∧
    cfgC6.exclude = some ["x1"] ∧
    kwargsEmpty.kw_exclude = none ∧
    kwargsEmpty.kw_fields = none ∧
    get_formset cfgC6 false kwargsEmpty =
      Except.ok (FormsetOutcome.superCall kwargsEmpty, cfgC6) := by
  exact ⟨rfl, rfl, rfl, rfl, rfl⟩

/-- C6 amended: the installed get_formset computes the flattened declared
fieldset list and the exclusion list extended with the current request's
read-only fields; for a generic-relation configuration (ct_fk_field
attribute present) these are passed to the generic formset factory, with the
localization-aware formset class substituted exactly when the configured
formset is the default generic implementation; for a non-generic
configuration it delegates to the inherited formset construction with the
original keyword arguments and the computed lists are not passed. -/
theorem c6_amended_get_formset (cfg : AdminRuntime) (hasPerm : Bool) (ro : ROResult)
    (cfg2 : AdminRuntime)
    (hro : get_readonly_fields cfg hasPerm = Except.ok (ro, cfg2)) :
    (cfg.has_ct_fk_field = false →
       get_formset cfg hasPerm kwargsEmpty =
         Except.ok (FormsetOutcome.superCall kwargsEmpty, cfg2)) ∧
    (cfg.has_ct_fk_field = true →
       ∃ d : GenericDefaults,
         get_formset cfg hasPerm kwargsEmpty =
           Except.ok (FormsetOutcome.genericFactory cfg.model.name d, cfg2) ∧
         d.fields = (match cfg.declared_fieldsets with
                     | some (f :: fs) => some (flatten_fieldsets (f :: fs))
                     | _ => none) ∧
         (∃ tail : List String,
            d.exclude.getD [] = cfg.exclude.getD [] ++ tail ∧
            tail.toFinset = ro.roSet) ∧
         d.formset = (if formsetIsDefaultGeneric cfg.formset then
                        PyFormsetVal.classVal FormsetCls.localizable
                      else cfg.formset) ∧
         d.form = cfg.form ∧ d.ct_field = cfg.ct_field ∧
         d.fk_field = cfg.ct_fk_field) := by
  constructor
  · intro h
    simp [get_formset, hro, h]
  · intro h
    by_cases hf : formsetIsDefaultGeneric cfg.formset
    · refine ⟨{ ct_field := cfg.ct_field, fk_field := cfg.ct_fk_field, form := cfg.form,
                formfield_callback := "formfield_for_dbfield",
                formset := PyFormsetVal.classVal FormsetCls.localizable,
                extra := cfg.extra, can_delete := cfg.can_delete, can_order := false,
                fields := (match cfg.declared_fieldsets with
                           | some (f :: fs) => some (flatten_fieldsets (f :: fs))
                           | _ => none),
                max_num := cfg.max_num,
                exclude := (if cfg.exclude.getD [] ++ ro.roList = [] then none
                            else some (cfg.exclude.getD [] ++ ro.roList)) },
              ?_, rfl, ?_, ?_, rfl, rfl, rfl⟩
      · simp [get_formset, hro, h, hf, updateDefaults, kwargsEmpty]
      · by_cases hx : cfg.exclude.getD [] ++ ro.roList = []
        · refine ⟨ro.roList, ?_, roList_toFinset ro⟩
          rw [if_pos hx]
          exact hx.symm
        · refine ⟨ro.roList, ?_, roList_toFinset ro⟩
          rw [if_neg hx]
          rfl
      · rw [if_pos hf]
    · refine ⟨{ ct_field := cfg.ct_field, fk_field := cfg.ct_fk_field, form := cfg.form,
                formfield_callback := "formfield_for_dbfield",
                formset := cfg.formset,
                extra := cfg.extra, can_delete := cfg.can_delete, can_order := false,
                fields := (match cfg.declared_fieldsets with
                           | some (f :: fs) => some (flatten_fieldsets (f :: fs))
                           | _ => none),
                max_num := cfg.max_num,
                exclude := (if cfg.exclude.getD [] ++ ro.roList = [] then none
                            else some (cfg.exclude.getD [] ++ ro.roList)) },
              ?_, rfl, ?_, ?_, rfl, rfl, rfl⟩
      · simp [get_formset, hro, h, hf, updateDefaults, kwargsEmpty]
      · by_cases hx : cfg.exclude.getD [] ++ ro.roList = []
        · refine ⟨ro.roList, ?_, roList_toFinset ro⟩
          rw [if_pos hx]
          exact hx.symm
        · refine ⟨ro.roList, ?_, roList_toFinset ro⟩
          rw [if_neg hx]
          rfl
      · rw [if_neg hf]

/-- C6 amended witness: the generic branch instantiated at the concrete
generic inline configuration cfgC6w with a permission-holding principal. -/
theorem c6_amended_get_formset_witness :
    cfgC6w.has_ct_fk_field = true ∧
    (∃ d : GenericDefaults,
       get_formset cfgC6w true kwargsEmpty =
         Except.ok (FormsetOutcome.genericFactory cfgC6w.model.name d, cfgC6w) ∧
       d.fields = (match cfgC6w.declared_fieldsets with
                   | some (f :: fs) => some (flatten_fieldsets (f :: fs))
                   | _ => none) ∧
       (∃ tail : List String,
          d.exclude.getD [] = cfgC6w.exclude.getD [] ++ tail ∧
          tail.toFinset = (ROResult.asList ["ro1"]).roSet) ∧
       d.formset = (if formsetIsDefaultGeneric cfgC6w.formset then
                      PyFormsetVal.classVal FormsetCls.localizable
                    else cfgC6w.formset) ∧
       d.form = cfgC6w.form ∧ d.ct_field = cfgC6w.ct_field ∧
       d.fk_field = cfgC6w.ct_fk_field) :=
  ⟨rfl, (c6_amended_get_formset cfgC6w true (ROResult.asList ["ro1"]) cfgC6w rfl).2 rfl⟩

/-- Wrapping the display-links default: the one-element list when a first
non-checkbox entry was found, the unchanged empty links sequence
otherwise. -/
theorem wrap_links_elems (o : Option String) (s : PySeq) (z : List String)
    (h : s.elems = []) :
    ((makeLazyLocalizedList
        (match o with
         | some n => PySeq.plain [n]
         | none => s) z).1).elems =
      (match o with | some n => [n] | none => ([] : List String)) := by
  cases o with
  | some n => rfl
  | none => exact makeLazy_elems_of_nil s z h

/-- C8 amended: for every top-level admin configuration whose display-links
list is empty, projection sets the display-links list to the one-element
list holding the first non-checkbox entry of the display list when such an
entry exists, and leaves it empty otherwise. -/
theorem c8_amended_display_links_default (m : PyModel) (cls : AdminCfg)
    (langs : List String)
    (h1 : cls.has_change_view = true) (h2 : cls.list_display_links.elems = []) :
    (projectWith m cls langs).list_display_links.elems =
      (match cls.list_display.elems.find? (fun n => n != "action_checkbox") with
       | some n => [n]
       | none => ([] : List String)) := by
  obtain ⟨nm, oid, ma, fo, ex, ld0, ldl0, le0, sf0, an, hcv, r1, r2⟩ := cls
  simp only at h1 h2 ⊢
  subst h1
  by_cases hmem : ("action_checkbox" ∈ ld0.elems ∨ an = true)
  · simp only [projectWith, hmem, h2]
    simp only [if_true, ite_true, eq_self_iff_true]
    exact wrap_links_elems _ ldl0 m.localized_fields h2
  · simp only [projectWith, hmem, h2]
    simp only [if_false, ite_false, eq_self_iff_true, if_true, ite_true]
    show ((makeLazyLocalizedList
        (match ("action_checkbox" :: ld0.elems).find? (fun n => n != "action_checkbox") with
         | some n => PySeq.plain [n]
         | none => ldl0) m.localized_fields).1).elems =
      (match ld0.elems.find? (fun n => n != "action_checkbox") with
       | some n => [n]
       | none => ([] : List String))
    rw [find_noncheckbox_cons ld0.elems]
    exact wrap_links_elems _ ldl0 m.localized_fields h2

/-- C8 amended witness: the concrete configuration adminC8w with display
list holding the checkbox column and title gets display-links set to the
one-element list holding title. -/
theorem c8_amended_display_links_default_witness :
    adminC8w.has_change_view = true ∧
    adminC8w.list_display_links.elems = [] ∧
    (projectWith modelC8 adminC8w ["en"]).list_display_links.elems = ["title"] :=
  ⟨rfl, rfl, c8_amended_display_links_default modelC8 adminC8w ["en"] rfl rfl⟩

/-- C9 amended: the projector raises exactly when the first argument is None
or a non-class (TypeError from the issubclass check), an unsupported class
(explicit TypeError), or an admin class whose model attribute is missing
(the error_no_model AttributeError) or present but None (AttributeError on
reading localized_fields of None); likewise, applying the factory to a class
fails exactly when the class's model attribute exists and is None.  In every
other case no error is raised and the projected configuration is
returned. -/
theorem c9_amended_error_conditions (arg : PyVal) (clsArg : Option AdminCfg)
    (langs : List String) :
    ((∃ e, L10n_new arg clsArg langs = Except.error e) ↔
       (arg = PyVal.pyNone ∨
        (∃ n, arg = PyVal.otherCls n) ∨
        (∃ a, arg = PyVal.adminCls a ∧
           (a.model_attr = none ∨ a.model_attr = some none)))) ∧
    (∀ (m : PyModel) (cls : AdminCfg),
       (∃ e, L10n_apply m cls langs = Except.error e) ↔ cls.model_attr = some none) ∧
    (∀ (m : PyModel) (cls : AdminCfg), cls.model_attr = none →
       L10n_apply m cls langs = Except.ok (projectWith m cls langs)) ∧
    (∀ (m : PyModel) (cls : AdminCfg) (m2 : PyModel),
       cls.model_attr = some (some m2) →
       L10n_apply m cls langs = Except.ok (projectWith m2 cls langs)) := by
  refine ⟨?_, ?_, ?_, ?_⟩
  · cases arg with
    | modelCls m =>
        cases clsArg with
        | some c => simp [L10n_new, L10n_call, mkDescendant, Except.map]
        | none => simp [L10n_new]
    | adminCls a =>
        cases hma : a.model_attr with
        | none =>
            cases clsArg with
            | some c => simp [L10n_new, hma, Except.map]
            | none => simp [L10n_new, hma, Except.map]
        | some v =>
            cases v with
            | none =>
                cases clsArg with
                | some c => simp [L10n_new, hma, Except.map]
                | none => simp [L10n_new, L10n_call, hma, Except.map]
            | some m =>
                cases clsArg with
                | some c => simp [L10n_new, L10n_call, mkDescendant, hma, Except.map]
                | none => simp [L10n_new, L10n_call, hma, Except.map]
    | otherCls n => simp [L10n_new]
    | pyNone => simp [L10n_new]
  · intro m cls
    cases hma : cls.model_attr with
    | none => simp [L10n_apply, L10n_call, hma]
    | some v =>
        cases v with
        | none => simp [L10n_apply, L10n_call, hma]
        | some m2 => simp [L10n_apply, L10n_call, hma]
  · intro m cls h
    simp [L10n_apply, L10n_call, h]
  · intro m cls m2 h
    simp [L10n_apply, L10n_call, h]

/-- C9 amended witness: a class without a model attribute combined with a
passed model projects without error. -/
theorem c9_amended_error_conditions_witness :
    adminC9w.model_attr = none ∧
    L10n_apply modelC9 adminC9w ["en"] = Except.ok (projectWith modelC9 adminC9w ["en"]) :=
  ⟨rfl, (c9_amended_error_conditions PyVal.pyNone none ["en"]).2.2.1 modelC9 adminC9w rfl⟩
